import Mathlib

/-!
Verification of the P2P session-orchestration layer
(`talk/owt/sdk/p2p/p2pclient.cc`).

The embedding models `P2PClient` as a pure state record plus an effect
trace.  Calls the client makes into its collaborators (the per-remote
`P2PPeerConnectionChannel` objects, and the `event_queue_` task queue used
to deliver caller continuations) are recorded as `Effect` values in the
order the source emits them; caller-supplied `std::function` continuations
and `LocalStream` pointers are identified by opaque `Nat` tokens, wrapped
in `Option` because both may be null.
-/

/-- Error kinds raised by the client, mirroring the `ExceptionType`
enumerators used in p2pclient.cc. -/
inductive ExceptionType where
  | kP2PClientRemoteNotExisted
  | kP2PClientRemoteNotAllowed
  | kP2PClientInvalidState
deriving DecidableEq, Repr

/-- One observable step the client performs against a collaborator.
`eventQueuePost...` constructors are tasks posted to `event_queue_`
(asynchronous delivery); `invokeSuccessString` is a direct synchronous
invocation of a caller continuation; `chan...` constructors are calls
delegated to a `P2PPeerConnectionChannel`, identified by its generation
number `chan`. -/
inductive Effect where
  | eventQueuePostFailure (on_failure : Nat) (kind : ExceptionType)
  | eventQueuePostPublication (on_success : Nat) (target_id : String) (stream : Option Nat)
  | invokeSuccessString (on_success : Nat) (arg : String)
  | chanPublish (chan : Nat) (stream : Option Nat) (on_success on_failure : Option Nat)
  | chanSend (chan : Nat) (message : String) (is_reliable : Bool) (on_success on_failure : Option Nat)
  | chanStop (chan : Nat) (on_success on_failure : Option Nat)
  | chanUnpublish (chan : Nat) (stream : Option Nat) (on_success on_failure : Option Nat)
  | chanGetStats (chan : Nat) (on_success on_failure : Option Nat)
  | chanIncoming (chan : Nat) (message : String)
  | chanSetAbandoned (chan : Nat)
  | chanDisableSendingStop (chan : Nat)
deriving DecidableEq, Repr

/-- Modelled from the spec: the per-remote `P2PPeerConnectionChannel`
(its implementation is not under src/; p2pclient.cc only calls its
accessors).  Spec section 4.5: a channel tracks whether it holds a
locally generated offer (`HaveLocalOffer`), retains the most recent
publish request `(stream, onSuccess, onFailure)`
(`GetLatestLocalStream` / `GetLatestPublishSuccessCallback` /
`GetLatestPublishFailureCallback`), and carries an `abandoned` flag
(`SetAbandoned` / `IsAbandoned`) plus a send-stop-disabled flag
(`DisableSendingStop`).  `chan_id` is a generation number giving each
created channel object a distinct identity. -/
structure P2PPeerConnectionChannel where
  chan_id : Nat
  local_id : String
  remote_id : String
  have_local_offer : Bool
  latest_stream : Option Nat
  latest_publish_success : Option Nat
  latest_publish_failure : Option Nat
  abandoned : Bool
  send_stop_disabled : Bool
deriving DecidableEq, Repr

/-- A freshly constructed channel, as built in
`P2PClient::GetPeerConnectionChannel` (p2pclient.cc:391-394). -/
def mkChannel (id : Nat) (lid rid : String) : P2PPeerConnectionChannel :=
  { chan_id := id
    local_id := lid
    remote_id := rid
    have_local_offer := false
    latest_stream := none
    latest_publish_success := none
    latest_publish_failure := none
    abandoned := false
    send_stop_disabled := false }

/-- The `P2PClient` state: local identity, allow-list
(`allowed_remote_ids_`), channel registry (`pc_channels_`, an assoc list
with unique keys), the retained removed-channel side list
(`removed_pc_channels_`; entries are `Option` because
`pc_channels_[remote_id]` in `OnStopped` yields a null pointer when the
key is absent), observers (by identity token), and the generation counter
for fresh channels. -/
structure P2PClient where
  local_id : String
  allowed_remote_ids : List String
  pc_channels : List (String × P2PPeerConnectionChannel)
  removed_pc_channels : List (Option P2PPeerConnectionChannel)
  observers : List Nat
  next_chan_id : Nat
deriving DecidableEq, Repr

/-- `pc_channels_.erase(key)` on the unique-key map. -/
def eraseKey (k : String) (m : List (String × P2PPeerConnectionChannel)) :
    List (String × P2PPeerConnectionChannel) :=
  m.filter (fun p => p.1 != k)

/-- Update the channel stored at key `k` in place (shared-pointer
mutation of a registry channel). -/
def updateChan (k : String) (f : P2PPeerConnectionChannel → P2PPeerConnectionChannel)
    (m : List (String × P2PPeerConnectionChannel)) :
    List (String × P2PPeerConnectionChannel) :=
  m.map (fun p => if p.1 == k then (p.1, f p.2) else p)

/-- `startsWithCL s pat` holds when `pat` is an initial segment of `s`. -/
def startsWithCL : List Char → List Char → Bool
  | _, [] => true
  | [], _ :: _ => false
  | a :: as, b :: bs => a == b && startsWithCL as bs

/-- Occurrence of `pat` anywhere in `s`. -/
def hasSubstringCL (pat : List Char) : List Char → Bool
  | [] => startsWithCL [] pat
  | a :: as => startsWithCL (a :: as) pat || hasSubstringCL pat as

/-- `message.find(pat) != std::string::npos` (both patterns used by the
source are ASCII, so character-wise search coincides with the byte-wise
`std::string::find`). -/
def containsSubstr (s pat : String) : Bool :=
  hasSubstringCL pat.data s.data

/-- Lexicographic strict order on character lists by codepoint; on UTF-8
data this coincides with the byte-wise order `std::string::compare`
uses. -/
def strLtCL : List Char → List Char → Bool
  | [], [] => false
  | [], _ :: _ => true
  | _ :: _, [] => false
  | a :: as, b :: bs => if a < b then true else if b < a then false else strLtCL as bs

/-- `a.compare(b) > 0` for `std::string` (p2pclient.cc:263). -/
def cppStringGreater (a b : String) : Bool :=
  strLtCL b.data a.data

/-- `"\"type\":\"offer\""`, the substring tested at p2pclient.cc:259. -/
def offerTypePattern : String := "\"type\":\"offer\""

/-- `"\"type\":\"chat-closed\""`, the substring tested at
p2pclient.cc:255/283. -/
def chatClosedPattern : String := "\"type\":\"chat-closed\""

/-- The reserved incompatible-ICE-gathering-policy code
(`IcsP2PError::kWebrtcIceGatheringPolicyUnsupported`, p2pclient.cc:27). -/
def kWebrtcIceGatheringPolicyUnsupported : Int := 2601

/-- An inbound signaling message as the source observes it: the raw text
(substring-searched for the type markers) and the result of the external
jsoncpp parse at p2pclient.cc:290-294 — `none` when `reader.parse` fails,
otherwise the extracted `(code, message)` pair, where a missing `data`
object or `code` field leaves `code` at its initialisation value `0`. -/
structure SigMessage where
  text : String
  json : Option (Int × String)
deriving DecidableEq, Repr

/-- Failure delivery used throughout the source: if the caller supplied a
failure continuation, post it to `event_queue_` with the given error;
otherwise do nothing. -/
def postFailureEffects (on_failure : Option Nat) (kind : ExceptionType) : List Effect :=
  match on_failure with
  | some f => [Effect.eventQueuePostFailure f kind]
  | none => []

/-- `P2PClient::IsPeerConnectionChannelCreated` (p2pclient.cc:369-374). -/
def P2PClient.IsPeerConnectionChannelCreated (c : P2PClient) (target_id : String) : Bool :=
  (List.lookup target_id c.pc_channels).isSome

/-- `P2PClient::GetPeerConnectionChannel` (p2pclient.cc:375-404): if a
channel exists and `replace` is requested or it is abandoned, evict it,
disable its outbound stop, and fall into the creation path; create a
fresh channel when none remains; otherwise return the existing one. -/
def P2PClient.GetPeerConnectionChannel (c : P2PClient) (target_id : String) (replace : Bool) :
    P2PClient × P2PPeerConnectionChannel × List Effect :=
  match List.lookup target_id c.pc_channels with
  | some pcc =>
    if replace || pcc.abandoned then
      let fresh := mkChannel c.next_chan_id c.local_id target_id
      ({ c with
          pc_channels := (target_id, fresh) :: eraseKey target_id c.pc_channels
          next_chan_id := c.next_chan_id + 1 },
       fresh, [Effect.chanDisableSendingStop pcc.chan_id])
    else
      (c, pcc, [])
  | none =>
    let fresh := mkChannel c.next_chan_id c.local_id target_id
    ({ c with
        pc_channels := (target_id, fresh) :: c.pc_channels
        next_chan_id := c.next_chan_id + 1 },
     fresh, [])

/-- Modelled from the spec: `P2PPeerConnectionChannel::Publish` (channel
implementation not under src/) retains the most recent
`(stream, onSuccess, onFailure)` request (spec section 4.5).  Applied to
the registry channel at `target_id` (whose generation is `chanId`); the
delegated call itself is the `chanPublish` effect. -/
def P2PClient.publishOnChannel (c : P2PClient) (target_id : String) (chanId : Nat)
    (stream on_success on_failure : Option Nat) : P2PClient × List Effect :=
  let upd : P2PPeerConnectionChannel → P2PPeerConnectionChannel := fun ch =>
    { ch with
      latest_stream := stream
      latest_publish_success := on_success
      latest_publish_failure := on_failure }
  ({ c with pc_channels := updateChan target_id upd c.pc_channels },
   [Effect.chanPublish chanId stream on_success on_failure])

/-- `P2PClient::SetLocalId` (p2pclient.cc:237-239). -/
def P2PClient.SetLocalId (c : P2PClient) (lid : String) : P2PClient :=
  { c with local_id := lid }

/-- `P2PClient::AddAllowedRemoteId` (p2pclient.cc:76-84): duplicate adds
are dropped. -/
def P2PClient.AddAllowedRemoteId (c : P2PClient) (target_id : String) : P2PClient :=
  if c.allowed_remote_ids.contains target_id then c
  else { c with allowed_remote_ids := c.allowed_remote_ids ++ [target_id] }

/-- `P2PClient::Stop` (p2pclient.cc:177-198): no channel → post
`InvalidState`; otherwise delegate `Stop` to the channel obtained from
the registry and erase the key. -/
def P2PClient.Stop (c : P2PClient) (target_id : String) (on_success on_failure : Option Nat) :
    P2PClient × List Effect :=
  if !(c.IsPeerConnectionChannelCreated target_id) then
    (c, postFailureEffects on_failure ExceptionType.kP2PClientInvalidState)
  else
    let r := c.GetPeerConnectionChannel target_id false
    ({ r.1 with pc_channels := eraseKey target_id r.1.pc_channels },
     r.2.2 ++ [Effect.chanStop r.2.1.chan_id on_success on_failure])

/-- `P2PClient::RemoveAllowedRemoteId` (p2pclient.cc:85-108): absent id →
post `RemoteNotExisted` and return; otherwise erase every occurrence from
the allow-list, then call `Stop(target_id)`. -/
def P2PClient.RemoveAllowedRemoteId (c : P2PClient) (target_id : String)
    (on_success on_failure : Option Nat) : P2PClient × List Effect :=
  if !(c.allowed_remote_ids.contains target_id) then
    (c, postFailureEffects on_failure ExceptionType.kP2PClientRemoteNotExisted)
  else
    let c1 := { c with allowed_remote_ids :=
      c.allowed_remote_ids.filter (fun x => x != target_id) }
    c1.Stop target_id on_success on_failure

/-- `P2PClient::Publish` (p2pclient.cc:109-144): allow-list guard posting
`RemoteNotAllowed`, then delegation to the registry channel.  The success
continuation handed to the channel is the wrapper around `on_success`
that builds the `P2PPublication`; it is identified here by the same
token. -/
def P2PClient.Publish (c : P2PClient) (target_id : String)
    (stream on_success on_failure : Option Nat) : P2PClient × List Effect :=
  if !(c.allowed_remote_ids.contains target_id) then
    (c, postFailureEffects on_failure ExceptionType.kP2PClientRemoteNotAllowed)
  else
    let r := c.GetPeerConnectionChannel target_id false
    let p := r.1.publishOnChannel target_id r.2.1.chan_id stream on_success on_failure
    (p.1, r.2.2 ++ p.2)

/-- `P2PClient::Send` (p2pclient.cc:153-176): allow-list guard posting
`RemoteNotAllowed`, then delegation of the message to the registry
channel. -/
def P2PClient.Send (c : P2PClient) (target_id message : String) (is_reliable : Bool)
    (on_success on_failure : Option Nat) : P2PClient × List Effect :=
  if !(c.allowed_remote_ids.contains target_id) then
    (c, postFailureEffects on_failure ExceptionType.kP2PClientRemoteNotAllowed)
  else
    let r := c.GetPeerConnectionChannel target_id false
    (r.1, r.2.2 ++ [Effect.chanSend r.2.1.chan_id message is_reliable on_success on_failure])

/-- `P2PClient::Unpublish` (p2pclient.cc:350-368). -/
def P2PClient.Unpublish (c : P2PClient) (target_id : String)
    (stream on_success on_failure : Option Nat) : P2PClient × List Effect :=
  if !(c.IsPeerConnectionChannelCreated target_id) then
    (c, postFailureEffects on_failure ExceptionType.kP2PClientInvalidState)
  else
    let r := c.GetPeerConnectionChannel target_id false
    (r.1, r.2.2 ++ [Effect.chanUnpublish r.2.1.chan_id stream on_success on_failure])

/-- `P2PClient::GetConnectionStats` (p2pclient.cc:199-235; both overloads
behave identically at this level). -/
def P2PClient.GetConnectionStats (c : P2PClient) (target_id : String)
    (on_success on_failure : Option Nat) : P2PClient × List Effect :=
  if !(c.IsPeerConnectionChannelCreated target_id) then
    (c, postFailureEffects on_failure ExceptionType.kP2PClientInvalidState)
  else
    let r := c.GetPeerConnectionChannel target_id false
    (r.1, r.2.2 ++ [Effect.chanGetStats r.2.1.chan_id on_success on_failure])

/-- `P2PClient::AddObserver` (p2pclient.cc:340-342). -/
def P2PClient.AddObserver (c : P2PClient) (obs : Nat) : P2PClient :=
  { c with observers := c.observers ++ [obs] }

/-- `P2PClient::RemoveObserver` (p2pclient.cc:343-349): erase the first
entry identical (by reference) to `obs`; when no entry matches,
`find_if` yields the past-the-end iterator and `erase(end())` is out of
range — modelled as `none` (undefined behaviour, no defined result). -/
def P2PClient.RemoveObserver (c : P2PClient) (obs : Nat) : Option P2PClient :=
  if c.observers.contains obs then
    some { c with observers := c.observers.erase obs }
  else
    none

/-- `P2PClient::OnStopped` (p2pclient.cc:444-455): append
`pc_channels_[remote_id]` to the removed-channel side list (a null entry
when the key is absent, since `operator[]` default-constructs), then
erase the key from the registry. -/
def P2PClient.OnStopped (c : P2PClient) (remote_id : String) : P2PClient :=
  { c with
    removed_pc_channels :=
      c.removed_pc_channels ++ [List.lookup remote_id c.pc_channels]
    pc_channels := eraseKey remote_id c.pc_channels }

/-- The fall-through tail of the signaling task (p2pclient.cc:324-326):
obtain (or create) the channel and forward the raw message. -/
def P2PClient.dispatchToChannel (c : P2PClient) (text remote_id : String) :
    P2PClient × List Effect :=
  let r := c.GetPeerConnectionChannel remote_id false
  (r.1, r.2.2 ++ [Effect.chanIncoming r.2.1.chan_id text])

/-- Glare resolution body (p2pclient.cc:267-281), entered with the
channel `pcc` returned at line 262: read the retained publish request,
stop the current channel (null continuations), erase it, create a fresh
channel, feed it the received offer, and re-issue the publish. -/
def P2PClient.handleGlare (c : P2PClient) (pcc : P2PPeerConnectionChannel)
    (text remote_id : String) : P2PClient × List Effect :=
  let c1 := { c with pc_channels := eraseKey remote_id c.pc_channels }
  let r := c1.GetPeerConnectionChannel remote_id false
  let p := r.1.publishOnChannel remote_id r.2.1.chan_id
    pcc.latest_stream pcc.latest_publish_success pcc.latest_publish_failure
  (p.1, [Effect.chanStop pcc.chan_id none none] ++ r.2.2
        ++ [Effect.chanIncoming r.2.1.chan_id text] ++ p.2)

/-- Abandon-and-retry body (p2pclient.cc:296-312), entered with the
channel `pcc` returned at line 297: read the retained publish request,
mark the channel abandoned, erase it, create a fresh channel and re-issue
the publish against it. -/
def P2PClient.handlePolicyRetry (c : P2PClient) (pcc : P2PPeerConnectionChannel)
    (remote_id : String) : P2PClient × List Effect :=
  let c1 := { c with pc_channels := eraseKey remote_id c.pc_channels }
  let r := c1.GetPeerConnectionChannel remote_id false
  let p := r.1.publishOnChannel remote_id r.2.1.chan_id
    pcc.latest_stream pcc.latest_publish_success pcc.latest_publish_failure
  (p.1, [Effect.chanSetAbandoned pcc.chan_id] ++ r.2.2 ++ p.2)

/-- The body of the task `P2PClient::OnSignalingMessage` posts to
`signaling_queue_` (p2pclient.cc:244-327), for a live client: allow-list
guard; drop teardown for a non-existent channel; glare resolution when an
offer meets an existing channel holding a local offer and the local id
sorts greater; teardown handling with the 2601 retry special case when
the message parses as JSON (falling through to normal dispatch when the
parse fails); otherwise forward to the channel. -/
def P2PClient.onSignalingMessageTask (c : P2PClient) (msg : SigMessage) (remote_id : String) :
    P2PClient × List Effect :=
  if !(c.allowed_remote_ids.contains remote_id) then (c, [])
  else if !(c.IsPeerConnectionChannelCreated remote_id) then
    if containsSubstr msg.text chatClosedPattern then (c, [])
    else c.dispatchToChannel msg.text remote_id
  else if containsSubstr msg.text offerTypePattern then
    let r := c.GetPeerConnectionChannel remote_id false
    if r.2.1.have_local_offer && cppStringGreater r.1.local_id remote_id then
      let g := r.1.handleGlare r.2.1 msg.text remote_id
      (g.1, r.2.2 ++ g.2)
    else
      let d := r.1.dispatchToChannel msg.text remote_id
      (d.1, r.2.2 ++ d.2)
  else if containsSubstr msg.text chatClosedPattern then
    match msg.json with
    | some cm =>
      let r := c.GetPeerConnectionChannel remote_id false
      if cm.1 == kWebrtcIceGatheringPolicyUnsupported then
        let g := r.1.handlePolicyRetry r.2.1 remote_id
        (g.1, r.2.2 ++ g.2)
      else
        ({ r.1 with pc_channels := eraseKey remote_id r.1.pc_channels },
         r.2.2 ++ [Effect.chanSetAbandoned r.2.1.chan_id])
    | none => c.dispatchToChannel msg.text remote_id
  else c.dispatchToChannel msg.text remote_id

/-- The posted signaling task as a function of the `weak_this.lock()`
result (p2pclient.cc:244-253): the body dereferences `that` with no null
check at line 247, so a destroyed owner leaves the task with no defined
result — modelled as `none`. -/
def signalingMessagePostedTask (locked : Option P2PClient) (msg : SigMessage)
    (remote_id : String) : Option (P2PClient × List Effect) :=
  match locked with
  | none => none
  | some that => some (that.onSignalingMessageTask msg remote_id)

/-- The `Connect` success continuation (p2pclient.cc:61-67) as a function
of the `weak_this.lock()` result: binds the returned id when the owner is
alive, then invokes `on_success` directly in either case. -/
def connectOnSuccessTask (locked : Option P2PClient) (on_success : Option Nat)
    (user_id : String) : Option P2PClient × List Effect :=
  (locked.map (fun that => that.SetLocalId user_id),
   match on_success with
   | some cb => [Effect.invokeSuccessString cb user_id]
   | none => [])

/-- The `Publish` success continuation (p2pclient.cc:132-142) as a
function of the `weak_this.lock()` result: returns early when
`on_success` is empty or the owner is dead; otherwise posts the
publication to `event_queue_`. -/
def publishOnSuccessTask (on_success : Option Nat) (locked : Option P2PClient)
    (target_id : String) (stream : Option Nat) : List Effect :=
  match on_success with
  | none => []
  | some cb =>
    match locked with
    | none => []
    | some _ => [Effect.eventQueuePostPublication cb target_id stream]

/-- Every state-bearing operation of the client, for whole-program
invariants. -/
inductive Op where
  | setLocalId (lid : String)
  | addAllowedRemoteId (target_id : String)
  | removeAllowedRemoteId (target_id : String) (on_success on_failure : Option Nat)
  | publish (target_id : String) (stream on_success on_failure : Option Nat)
  | send (target_id message : String) (is_reliable : Bool) (on_success on_failure : Option Nat)
  | unpublish (target_id : String) (stream on_success on_failure : Option Nat)
  | stop (target_id : String) (on_success on_failure : Option Nat)
  | getConnectionStats (target_id : String) (on_success on_failure : Option Nat)
  | signalingMessageTask (msg : SigMessage) (remote_id : String)
  | onStopped (remote_id : String)
  | addObserver (obs : Nat)
  | removeObserver (obs : Nat)
deriving DecidableEq, Repr

/-- One operation applied to a client state.  `removeObserver` on an
unregistered observer has no defined behaviour in the source; the step
relation leaves the state unchanged in that case. -/
def P2PClient.step (c : P2PClient) : Op → P2PClient × List Effect
  | Op.setLocalId l => (c.SetLocalId l, [])
  | Op.addAllowedRemoteId t => (c.AddAllowedRemoteId t, [])
  | Op.removeAllowedRemoteId t s f => c.RemoveAllowedRemoteId t s f
  | Op.publish t st s f => c.Publish t st s f
  | Op.send t m rel s f => c.Send t m rel s f
  | Op.unpublish t st s f => c.Unpublish t st s f
  | Op.stop t s f => c.Stop t s f
  | Op.getConnectionStats t s f => c.GetConnectionStats t s f
  | Op.signalingMessageTask m r => c.onSignalingMessageTask m r
  | Op.onStopped r => (c.OnStopped r, [])
  | Op.addObserver o => (c.AddObserver o, [])
  | Op.removeObserver o =>
    match c.RemoveObserver o with
    | some c1 => (c1, [])
    | none => (c, [])

/-! ### Concrete states and messages used to instantiate the theorems -/

/-- A channel for remote `"a"` owned by local `"b"` that holds a local
offer and a retained publish request (stream 5, continuations 6/7). -/
def chA : P2PPeerConnectionChannel :=
  { mkChannel 0 "b" "a" with
      have_local_offer := true
      latest_stream := some 5
      latest_publish_success := some 6
      latest_publish_failure := some 7 }

/-- A client with local id `"b"`, remote `"a"` allow-listed, and `chA`
registered for `"a"`. -/
def cW : P2PClient :=
  { local_id := "b"
    allowed_remote_ids := ["a"]
    pc_channels := [("a", chA)]
    removed_pc_channels := []
    observers := [3, 5]
    next_chan_id := 1 }

/-- A client whose allow-list is empty but whose registry still holds a
channel for `"x"`. -/
def cNoAllow : P2PClient :=
  { local_id := "b"
    allowed_remote_ids := []
    pc_channels := [("x", mkChannel 0 "b" "x")]
    removed_pc_channels := []
    observers := []
    next_chan_id := 1 }

/-- An offer message (valid JSON is irrelevant to the offer path). -/
def offerMsg : SigMessage :=
  { text := "\x7b\"type\":\"offer\",\"sdp\":\"v=0\"\x7d", json := none }

/-- A chat-closed message whose payload carries the reserved code 2601. -/
def closedMsg2601 : SigMessage :=
  { text := "\x7b\"type\":\"chat-closed\",\"data\":\x7b\"code\":2601\x7d\x7d"
    json := some (2601, "") }

/-- A chat-closed message that parses but carries no `data` payload, so
extraction leaves the code at 0. -/
def closedMsgPlain : SigMessage :=
  { text := "\x7b\"type\":\"chat-closed\"\x7d", json := some (0, "") }

/-- A truncated chat-closed message: the type marker substring is
present, but the text is not valid JSON, so `reader.parse` fails. -/
def closedMsgBad : SigMessage :=
  { text := "\x7b\"type\":\"chat-closed\"", json := none }

/-! ### Helper lemmas -/

theorem lookup_eraseKey_self (k : String) (m : List (String × P2PPeerConnectionChannel)) :
    List.lookup k (eraseKey k m) = none := by
  induction m with
  | nil => simp [eraseKey]
  | cons p t ih =>
    by_cases h : p.1 = k
    · simpa [eraseKey, h] using ih
    · simp only [eraseKey, List.filter] at ih ⊢
      have hb : (p.1 != k) = true := by simpa using h
      simp only [hb]
      have hk : (k == p.1) = false := by
        simpa using fun hkk => h hkk.symm
      simpa [List.lookup, hk] using ih

theorem updateChan_eraseKey (k : String) (f : P2PPeerConnectionChannel → P2PPeerConnectionChannel)
    (m : List (String × P2PPeerConnectionChannel)) :
    updateChan k f (eraseKey k m) = eraseKey k m := by
  induction m with
  | nil => simp [eraseKey, updateChan]
  | cons p t ih =>
    by_cases h : p.1 = k
    · simpa [eraseKey, h] using ih
    · have hb : (p.1 != k) = true := by simpa using h
      simp only [eraseKey, List.filter, hb] at ih ⊢
      simpa [updateChan, h] using ih

theorem getPCC_existing (c : P2PClient) (t : String) (pcc : P2PPeerConnectionChannel)
    (h : List.lookup t c.pc_channels = some pcc) (hab : pcc.abandoned = false) :
    c.GetPeerConnectionChannel t false = (c, pcc, []) := by
  simp [P2PClient.GetPeerConnectionChannel, h, hab]

/-! ### Claim theorems -/

theorem getPCC_absent (c : P2PClient) (t : String)
    (h : List.lookup t c.pc_channels = none) :
    c.GetPeerConnectionChannel t false =
      ({ c with
          pc_channels := (t, mkChannel c.next_chan_id c.local_id t) :: c.pc_channels
          next_chan_id := c.next_chan_id + 1 },
       mkChannel c.next_chan_id c.local_id t, []) := by
  simp [P2PClient.GetPeerConnectionChannel, h]

theorem updateChan_cons_self (k : String) (f : P2PPeerConnectionChannel → P2PPeerConnectionChannel)
    (v : P2PPeerConnectionChannel) (m : List (String × P2PPeerConnectionChannel)) :
    updateChan k f ((k, v) :: m) = (k, f v) :: updateChan k f m := by
  simp [updateChan]

theorem stop_absent (c : P2PClient) (t : String) (oS : Option Nat) (f : Nat)
    (h : List.lookup t c.pc_channels = none) :
    c.Stop t oS (some f) =
      (c, [Effect.eventQueuePostFailure f ExceptionType.kP2PClientInvalidState]) := by
  simp [P2PClient.Stop, P2PClient.IsPeerConnectionChannelCreated, h, postFailureEffects]

/-- Claim C1: for an inbound offer from `remote_id` whose channel already
holds a locally generated offer — if the local id sorts lexicographically
greater, the client stops the current channel (discarding the local
offer), evicts it, creates a fresh channel, feeds it the received offer,
and re-issues the preserved publish request (stream plus continuations)
against it; if the local id sorts lower or equal, the offer is forwarded
to the existing channel unchanged — the outcome is decided purely by the
id comparison. -/
theorem C1_glare_resolution (c : P2PClient) (msg : SigMessage) (remote_id : String)
    (pcc : P2PPeerConnectionChannel)
    (hallow : c.allowed_remote_ids.contains remote_id = true)
    (hchan : List.lookup remote_id c.pc_channels = some pcc)
    (hab : pcc.abandoned = false)
    (hoffer : pcc.have_local_offer = true)
    (hmsg : containsSubstr msg.text offerTypePattern = true) :
    (cppStringGreater c.local_id remote_id = true →
      c.onSignalingMessageTask msg remote_id =
        ({ c with
            pc_channels := (remote_id,
              { mkChannel c.next_chan_id c.local_id remote_id with
                  latest_stream := pcc.latest_stream
                  latest_publish_success := pcc.latest_publish_success
                  latest_publish_failure := pcc.latest_publish_failure }) ::
              eraseKey remote_id c.pc_channels
            next_chan_id := c.next_chan_id + 1 },
         [Effect.chanStop pcc.chan_id none none,
          Effect.chanIncoming c.next_chan_id msg.text,
          Effect.chanPublish c.next_chan_id pcc.latest_stream
            pcc.latest_publish_success pcc.latest_publish_failure])) ∧
    (cppStringGreater c.local_id remote_id = false →
      c.onSignalingMessageTask msg remote_id =
        (c, [Effect.chanIncoming pcc.chan_id msg.text])) := by
  have hmem : remote_id ∈ c.allowed_remote_ids := by simpa using hallow
  constructor
  · intro hgt
    simp [P2PClient.onSignalingMessageTask, hmem, hchan, hmsg, hoffer, hgt,
      P2PClient.IsPeerConnectionChannelCreated,
      getPCC_existing c remote_id pcc hchan hab,
      P2PClient.handleGlare, getPCC_absent, lookup_eraseKey_self,
      P2PClient.publishOnChannel, updateChan_cons_self, updateChan_eraseKey,
      mkChannel]
  · intro hle
    simp [P2PClient.onSignalingMessageTask, hmem, hchan, hmsg, hoffer, hle,
      P2PClient.IsPeerConnectionChannelCreated,
      getPCC_existing c remote_id pcc hchan hab,
      P2PClient.dispatchToChannel]

/-- Witness for C1 at a concrete glare state: local `"b"` sorts greater
than remote `"a"`, so the offer from `"a"` replaces the channel and the
retained publish request is re-issued against the replacement. -/
theorem C1_glare_resolution_witness :
    cW.allowed_remote_ids.contains "a" = true ∧
    List.lookup "a" cW.pc_channels = some chA ∧
    chA.abandoned = false ∧
    chA.have_local_offer = true ∧
    containsSubstr offerMsg.text offerTypePattern = true ∧
    cppStringGreater cW.local_id "a" = true ∧
    cW.onSignalingMessageTask offerMsg "a" =
      ({ cW with
          pc_channels := [("a",
            { mkChannel 1 "b" "a" with
                latest_stream := some 5
                latest_publish_success := some 6
                latest_publish_failure := some 7 })]
          next_chan_id := 2 },
       [Effect.chanStop 0 none none,
        Effect.chanIncoming 1 offerMsg.text,
        Effect.chanPublish 1 (some 5) (some 6) (some 7)]) :=
  ⟨rfl, rfl, rfl, rfl, rfl, rfl,
   by exact (C1_glare_resolution cW offerMsg "a" chA rfl rfl rfl rfl rfl).1 rfl⟩

/-- Claim C2: a chat-closed message for an existing channel whose parsed
payload carries the reserved code 2601 marks the channel abandoned (no
`chanStop` is delegated, so it emits no outbound teardown), evicts it,
creates a replacement channel for the same remote id, and issues exactly
one new `Publish` against the replacement carrying the stream and
continuations the abandoned channel held. -/
theorem C2_abandon_retry (c : P2PClient) (msg : SigMessage) (remote_id err : String)
    (pcc : P2PPeerConnectionChannel)
    (hallow : c.allowed_remote_ids.contains remote_id = true)
    (hchan : List.lookup remote_id c.pc_channels = some pcc)
    (hab : pcc.abandoned = false)
    (hnotoffer : containsSubstr msg.text offerTypePattern = false)
    (hclosed : containsSubstr msg.text chatClosedPattern = true)
    (hjson : msg.json = some (kWebrtcIceGatheringPolicyUnsupported, err)) :
    c.onSignalingMessageTask msg remote_id =
      ({ c with
          pc_channels := (remote_id,
            { mkChannel c.next_chan_id c.local_id remote_id with
                latest_stream := pcc.latest_stream
                latest_publish_success := pcc.latest_publish_success
                latest_publish_failure := pcc.latest_publish_failure }) ::
            eraseKey remote_id c.pc_channels
          next_chan_id := c.next_chan_id + 1 },
       [Effect.chanSetAbandoned pcc.chan_id,
        Effect.chanPublish c.next_chan_id pcc.latest_stream
          pcc.latest_publish_success pcc.latest_publish_failure]) := by
  have hmem : remote_id ∈ c.allowed_remote_ids := by simpa using hallow
  simp [P2PClient.onSignalingMessageTask, hmem, hchan, hnotoffer, hclosed, hjson,
    P2PClient.IsPeerConnectionChannelCreated,
    getPCC_existing c remote_id pcc hchan hab,
    P2PClient.handlePolicyRetry, getPCC_absent, lookup_eraseKey_self,
    P2PClient.publishOnChannel, updateChan_cons_self, updateChan_eraseKey,
    mkChannel, kWebrtcIceGatheringPolicyUnsupported]

/-- Witness for C2 at a concrete state: the channel for `"a"` held the
publish request (5, 6, 7); the 2601 teardown replaces the channel and
re-publishes the same request. -/
theorem C2_abandon_retry_witness :
    cW.allowed_remote_ids.contains "a" = true ∧
    List.lookup "a" cW.pc_channels = some chA ∧
    chA.abandoned = false ∧
    containsSubstr closedMsg2601.text offerTypePattern = false ∧
    containsSubstr closedMsg2601.text chatClosedPattern = true ∧
    closedMsg2601.json = some (kWebrtcIceGatheringPolicyUnsupported, "") ∧
    cW.onSignalingMessageTask closedMsg2601 "a" =
      ({ cW with
          pc_channels := [("a",
            { mkChannel 1 "b" "a" with
                latest_stream := some 5
                latest_publish_success := some 6
                latest_publish_failure := some 7 })]
          next_chan_id := 2 },
       [Effect.chanSetAbandoned 0,
        Effect.chanPublish 1 (some 5) (some 6) (some 7)]) :=
  ⟨rfl, rfl, rfl, rfl, rfl, rfl,
   by exact C2_abandon_retry cW closedMsg2601 "a" "" chA rfl rfl rfl rfl rfl rfl⟩

/-- Claim C3: for a target id not in the allow-list, `Publish` and `Send`
fail with `RemoteNotAllowed`; the failure continuation is posted to the
event queue (the only effect is an `eventQueuePostFailure`, never a
direct invocation), and the state — in particular the channel registry —
is unchanged, so no registry entry is created. -/
theorem C3_remote_not_allowed (c : P2PClient) (target_id message : String)
    (stream oS : Option Nat) (fcb : Nat) (is_reliable : Bool)
    (h : c.allowed_remote_ids.contains target_id = false) :
    c.Publish target_id stream oS (some fcb) =
      (c, [Effect.eventQueuePostFailure fcb ExceptionType.kP2PClientRemoteNotAllowed]) ∧
    c.Send target_id message is_reliable oS (some fcb) =
      (c, [Effect.eventQueuePostFailure fcb ExceptionType.kP2PClientRemoteNotAllowed]) := by
  have hmem : ¬ (target_id ∈ c.allowed_remote_ids) := by simpa using h
  constructor <;>
    simp [P2PClient.Publish, P2PClient.Send, hmem, postFailureEffects]

/-- Witness for C3: `"zz"` is not allow-listed on `cW`. -/
theorem C3_remote_not_allowed_witness :
    cW.allowed_remote_ids.contains "zz" = false ∧
    cW.Publish "zz" (some 1) (some 2) (some 3) =
      (cW, [Effect.eventQueuePostFailure 3 ExceptionType.kP2PClientRemoteNotAllowed]) ∧
    cW.Send "zz" "hello" true (some 2) (some 3) =
      (cW, [Effect.eventQueuePostFailure 3 ExceptionType.kP2PClientRemoteNotAllowed]) :=
  ⟨rfl, (C3_remote_not_allowed cW "zz" "hello" (some 1) (some 2) 3 true rfl).1,
        (C3_remote_not_allowed cW "zz" "hello" (some 1) (some 2) 3 true rfl).2⟩

/-- Claim C4: `Stop` on a target with no channel posts `InvalidState` to
the event queue; on a target with an existing (established) channel it
delegates `Stop` to that channel and evicts it from the registry; hence a
second `Stop` right after a first successful one fails with
`InvalidState`. -/
theorem C4_stop_semantics (c : P2PClient) (target_id : String) (oS : Option Nat)
    (fcb : Nat) (pcc : P2PPeerConnectionChannel) :
    (List.lookup target_id c.pc_channels = none →
      c.Stop target_id oS (some fcb) =
        (c, [Effect.eventQueuePostFailure fcb ExceptionType.kP2PClientInvalidState])) ∧
    (List.lookup target_id c.pc_channels = some pcc → pcc.abandoned = false →
      c.Stop target_id oS (some fcb) =
        ({ c with pc_channels := eraseKey target_id c.pc_channels },
         [Effect.chanStop pcc.chan_id oS (some fcb)])) ∧
    (List.lookup target_id c.pc_channels = some pcc →
      (c.Stop target_id oS (some fcb)).1.Stop target_id oS (some fcb) =
        ((c.Stop target_id oS (some fcb)).1,
         [Effect.eventQueuePostFailure fcb ExceptionType.kP2PClientInvalidState])) := by
  refine ⟨?_, ?_, ?_⟩
  · intro h
    simp [P2PClient.Stop, P2PClient.IsPeerConnectionChannelCreated, h, postFailureEffects]
  · intro hchan hab
    simp [P2PClient.Stop, P2PClient.IsPeerConnectionChannelCreated, hchan,
      getPCC_existing c target_id pcc hchan hab]
  · intro hchan
    have hnone : List.lookup target_id (c.Stop target_id oS (some fcb)).1.pc_channels = none := by
      simp [P2PClient.Stop, P2PClient.IsPeerConnectionChannelCreated, hchan,
        lookup_eraseKey_self]
    exact stop_absent (c.Stop target_id oS (some fcb)).1 target_id oS fcb hnone

/-- Witness for C4: no channel for `"zz"` on `cW` (first `Stop` fails);
the channel `chA` for `"a"` is stopped and evicted; a second `Stop` on
`"a"` then fails with `InvalidState`. -/
theorem C4_stop_semantics_witness :
    List.lookup "zz" cW.pc_channels = none ∧
    cW.Stop "zz" none (some 9) =
      (cW, [Effect.eventQueuePostFailure 9 ExceptionType.kP2PClientInvalidState]) ∧
    List.lookup "a" cW.pc_channels = some chA ∧
    chA.abandoned = false ∧
    cW.Stop "a" none (some 9) =
      ({ cW with pc_channels := eraseKey "a" cW.pc_channels },
       [Effect.chanStop 0 none (some 9)]) ∧
    (cW.Stop "a" none (some 9)).1.Stop "a" none (some 9) =
      ((cW.Stop "a" none (some 9)).1,
       [Effect.eventQueuePostFailure 9 ExceptionType.kP2PClientInvalidState]) :=
  ⟨rfl, (C4_stop_semantics cW "zz" none 9 chA).1 rfl, rfl, rfl,
   by exact (C4_stop_semantics cW "a" none 9 chA).2.1 rfl rfl,
   (C4_stop_semantics cW "a" none 9 chA).2.2 rfl⟩

/-- Claim C5: `RemoveAllowedRemoteId` on an absent id posts
`RemoteNotExisted` to the event queue and leaves the whole state (the
allow-list in particular) unchanged; on a present id it removes the id
from the allow-list and then invokes `Stop` on that id. -/
theorem C5_remove_allowed_id (c : P2PClient) (target_id : String) (oS : Option Nat)
    (fcb : Nat) :
    (c.allowed_remote_ids.contains target_id = false →
      c.RemoveAllowedRemoteId target_id oS (some fcb) =
        (c, [Effect.eventQueuePostFailure fcb ExceptionType.kP2PClientRemoteNotExisted])) ∧
    (c.allowed_remote_ids.contains target_id = true →
      c.RemoveAllowedRemoteId target_id oS (some fcb) =
        P2PClient.Stop
          { c with allowed_remote_ids :=
              c.allowed_remote_ids.filter (fun x => x != target_id) }
          target_id oS (some fcb)) := by
  constructor
  · intro h
    have hmem : ¬ (target_id ∈ c.allowed_remote_ids) := by simpa using h
    simp [P2PClient.RemoveAllowedRemoteId, hmem, postFailureEffects]
  · intro h
    have hmem : target_id ∈ c.allowed_remote_ids := by simpa using h
    simp [P2PClient.RemoveAllowedRemoteId, hmem]

/-- Witness for C5: `"zz"` is absent (failure path); `"a"` is present
(removal followed by `Stop "a"`). -/
theorem C5_remove_allowed_id_witness :
    cW.allowed_remote_ids.contains "zz" = false ∧
    cW.RemoveAllowedRemoteId "zz" none (some 9) =
      (cW, [Effect.eventQueuePostFailure 9 ExceptionType.kP2PClientRemoteNotExisted]) ∧
    cW.allowed_remote_ids.contains "a" = true ∧
    cW.RemoveAllowedRemoteId "a" none (some 9) =
      P2PClient.Stop
        { cW with allowed_remote_ids := cW.allowed_remote_ids.filter (fun x => x != "a") }
        "a" none (some 9) :=
  ⟨rfl, (C5_remove_allowed_id cW "zz" none 9).1 rfl, rfl,
   (C5_remove_allowed_id cW "a" none 9).2 rfl⟩

/-- Claim C6 counterexample: with `"x"` absent from the allow-list but a
live channel for `"x"` still in the registry, `RemoveAllowedRemoteId "x"`
posts `RemoteNotExisted` and returns with the state untouched: contrary
to the claim, no teardown is attempted — `Stop` is not invoked, no
`chanStop` is delegated, and the channel for `"x"` survives in the
registry. -/
theorem C6_counterexample :
    cNoAllow.RemoveAllowedRemoteId "x" none (some 9) =
      (cNoAllow, [Effect.eventQueuePostFailure 9 ExceptionType.kP2PClientRemoteNotExisted]) ∧
    List.lookup "x" (cNoAllow.RemoveAllowedRemoteId "x" none (some 9)).1.pc_channels =
      some (mkChannel 0 "b" "x") := by
  constructor <;> rfl

/-- Claim C6 (amended): removal of an id absent from the allow-list
leaves the client state — allow-list and registry — unchanged and
triggers no teardown attempt: `Stop` is never reached, so no `chanStop`
is delegated to any channel; the only effect is the `RemoteNotExisted`
failure posted to the event queue (when a failure continuation was
supplied). -/
theorem C6_remove_absent_no_teardown (c : P2PClient) (target_id : String)
    (oS oF : Option Nat)
    (h : c.allowed_remote_ids.contains target_id = false) :
    (c.RemoveAllowedRemoteId target_id oS oF).1 = c ∧
    (∀ ch s f, Effect.chanStop ch s f ∉ (c.RemoveAllowedRemoteId target_id oS oF).2) ∧
    (c.RemoveAllowedRemoteId target_id oS oF).2 =
      postFailureEffects oF ExceptionType.kP2PClientRemoteNotExisted := by
  have hmem : ¬ (target_id ∈ c.allowed_remote_ids) := by simpa using h
  have e : c.RemoveAllowedRemoteId target_id oS oF =
      (c, postFailureEffects oF ExceptionType.kP2PClientRemoteNotExisted) := by
    simp [P2PClient.RemoveAllowedRemoteId, hmem]
  refine ⟨by rw [e], ?_, by rw [e]⟩
  intro ch s f
  rw [e]
  cases oF <;> simp [postFailureEffects]

/-- Witness for the amended C6 at a state that even holds a channel for
the absent id: nothing is torn down. -/
theorem C6_remove_absent_no_teardown_witness :
    cNoAllow.allowed_remote_ids.contains "x" = false ∧
    (cNoAllow.RemoveAllowedRemoteId "x" none (some 9)).1 = cNoAllow ∧
    (∀ ch s f, Effect.chanStop ch s f ∉ (cNoAllow.RemoveAllowedRemoteId "x" none (some 9)).2) :=
  ⟨rfl, (C6_remove_absent_no_teardown cNoAllow "x" none (some 9) rfl).1,
   (C6_remove_absent_no_teardown cNoAllow "x" none (some 9) rfl).2.1⟩

/-- Claim C7 (code bug): of the asynchronous callbacks closing over the
client through `weak_this`, the `Connect` success continuation
(p2pclient.cc:61-67) and the `Publish` success continuation
(p2pclient.cc:132-142) treat a destroyed owner as a no-op, but the
posted inbound-signaling task reads `that->allowed_remote_ids_` at
p2pclient.cc:247 without any null check after `weak_this.lock()`, so
with the owner destroyed it dereferences the dangling owner and has no
defined result (`none`) instead of the no-op the claim requires. -/
theorem C7_dangling_owner :
    connectOnSuccessTask none (some 0) "uid" =
      (none, [Effect.invokeSuccessString 0 "uid"]) ∧
    publishOnSuccessTask (some 0) none "peer" (some 1) = [] ∧
    signalingMessagePostedTask none offerMsg "peer" = none :=
  ⟨rfl, rfl, rfl⟩

/-- Claim C8 counterexample: `closedMsgBad` carries the chat-closed type
marker but its text is not valid JSON, so the parse at p2pclient.cc:290
fails and control falls through to normal dispatch: contrary to the
claim, the message IS forwarded to the existing channel, which is
neither marked abandoned nor evicted. -/
theorem C8_counterexample :
    cW.onSignalingMessageTask closedMsgBad "a" =
      (cW, [Effect.chanIncoming 0 closedMsgBad.text]) ∧
    Effect.chanSetAbandoned 0 ∉ (cW.onSignalingMessageTask closedMsgBad "a").2 ∧
    List.lookup "a" (cW.onSignalingMessageTask closedMsgBad "a").1.pc_channels = some chA := by
  refine ⟨rfl, by decide, rfl⟩

/-- Claim C8 (amended): a chat-closed message for an existing channel
whose text parses as JSON and whose extracted code is anything other
than 2601 (a missing `data` payload or `code` field extracts as 0) marks
the channel abandoned — suppressing its outbound teardown — evicts it,
and does not forward the message to the channel; a chat-closed message
whose text fails to parse as JSON is instead forwarded verbatim to the
channel. -/
theorem C8_teardown_other_codes (c : P2PClient) (msg : SigMessage) (remote_id err : String)
    (pcc : P2PPeerConnectionChannel) (code : Int)
    (hallow : c.allowed_remote_ids.contains remote_id = true)
    (hchan : List.lookup remote_id c.pc_channels = some pcc)
    (hab : pcc.abandoned = false)
    (hnotoffer : containsSubstr msg.text offerTypePattern = false)
    (hclosed : containsSubstr msg.text chatClosedPattern = true) :
    (msg.json = some (code, err) → code ≠ kWebrtcIceGatheringPolicyUnsupported →
      c.onSignalingMessageTask msg remote_id =
        ({ c with pc_channels := eraseKey remote_id c.pc_channels },
         [Effect.chanSetAbandoned pcc.chan_id])) ∧
    (msg.json = none →
      c.onSignalingMessageTask msg remote_id =
        (c, [Effect.chanIncoming pcc.chan_id msg.text])) := by
  have hmem : remote_id ∈ c.allowed_remote_ids := by simpa using hallow
  constructor
  · intro hjson hne
    have hbe : (code == kWebrtcIceGatheringPolicyUnsupported) = false :=
      beq_eq_false_iff_ne.mpr hne
    simp [P2PClient.onSignalingMessageTask, hmem, hchan, hnotoffer, hclosed, hjson, hbe,
      P2PClient.IsPeerConnectionChannelCreated,
      getPCC_existing c remote_id pcc hchan hab]
  · intro hjson
    simp [P2PClient.onSignalingMessageTask, hmem, hchan, hnotoffer, hclosed, hjson,
      P2PClient.IsPeerConnectionChannelCreated,
      getPCC_existing c remote_id pcc hchan hab,
      P2PClient.dispatchToChannel]

/-- Witness for the amended C8: `closedMsgPlain` parses with no payload
(code 0), so the channel for `"a"` is abandoned and evicted with no
forwarding; `closedMsgBad` fails to parse and is forwarded. -/
theorem C8_teardown_other_codes_witness :
    cW.allowed_remote_ids.contains "a" = true ∧
    List.lookup "a" cW.pc_channels = some chA ∧
    closedMsgPlain.json = some (0, "") ∧
    (0 : Int) ≠ kWebrtcIceGatheringPolicyUnsupported ∧
    cW.onSignalingMessageTask closedMsgPlain "a" =
      ({ cW with pc_channels := eraseKey "a" cW.pc_channels },
       [Effect.chanSetAbandoned 0]) ∧
    closedMsgBad.json = none ∧
    cW.onSignalingMessageTask closedMsgBad "a" =
      (cW, [Effect.chanIncoming 0 closedMsgBad.text]) :=
  ⟨rfl, rfl, rfl, by decide,
   by exact (C8_teardown_other_codes cW closedMsgPlain "a" "" chA 0
       rfl rfl rfl rfl rfl).1 rfl (by decide),
   rfl,
   by exact (C8_teardown_other_codes cW closedMsgBad "a" "" chA 0
       rfl rfl rfl rfl rfl).2 rfl⟩

/-! ### Preservation of the removed-channel side list -/

theorem removed_getPCC (c : P2PClient) (t : String) (b : Bool) :
    (c.GetPeerConnectionChannel t b).1.removed_pc_channels = c.removed_pc_channels := by
  simp only [P2PClient.GetPeerConnectionChannel]
  split <;> first
  | rfl
  | (split <;> rfl)

theorem removed_publishOnChannel (c : P2PClient) (t : String) (id : Nat)
    (s f1 f2 : Option Nat) :
    (c.publishOnChannel t id s f1 f2).1.removed_pc_channels = c.removed_pc_channels := rfl

theorem removed_dispatch (c : P2PClient) (text r : String) :
    (c.dispatchToChannel text r).1.removed_pc_channels = c.removed_pc_channels := by
  simp [P2PClient.dispatchToChannel, removed_getPCC]

theorem removed_handleGlare (c : P2PClient) (pcc : P2PPeerConnectionChannel)
    (text r : String) :
    (c.handleGlare pcc text r).1.removed_pc_channels = c.removed_pc_channels := by
  simp [P2PClient.handleGlare, removed_getPCC, removed_publishOnChannel]

theorem removed_handlePolicyRetry (c : P2PClient) (pcc : P2PPeerConnectionChannel)
    (r : String) :
    (c.handlePolicyRetry pcc r).1.removed_pc_channels = c.removed_pc_channels := by
  simp [P2PClient.handlePolicyRetry, removed_getPCC, removed_publishOnChannel]

theorem removed_task (c : P2PClient) (msg : SigMessage) (r : String) :
    (c.onSignalingMessageTask msg r).1.removed_pc_channels = c.removed_pc_channels := by
  simp only [P2PClient.onSignalingMessageTask]
  split
  · rfl
  split
  · split
    · rfl
    · exact removed_dispatch _ _ _
  split
  · split
    · simp [removed_handleGlare, removed_getPCC]
    · simp [removed_dispatch, removed_getPCC]
  split
  · split
    · split
      · simp [removed_handlePolicyRetry, removed_getPCC]
      · simp [removed_getPCC]
    · exact removed_dispatch _ _ _
  · exact removed_dispatch _ _ _

theorem removed_Stop (c : P2PClient) (t : String) (s f : Option Nat) :
    (c.Stop t s f).1.removed_pc_channels = c.removed_pc_channels := by
  simp only [P2PClient.Stop]
  split
  · rfl
  · simp [removed_getPCC]

theorem removed_RemoveAllowed (c : P2PClient) (t : String) (s f : Option Nat) :
    (c.RemoveAllowedRemoteId t s f).1.removed_pc_channels = c.removed_pc_channels := by
  simp only [P2PClient.RemoveAllowedRemoteId]
  split
  · rfl
  · simp [removed_Stop]

theorem removed_Publish (c : P2PClient) (t : String) (st s f : Option Nat) :
    (c.Publish t st s f).1.removed_pc_channels = c.removed_pc_channels := by
  simp only [P2PClient.Publish]
  split
  · rfl
  · simp [removed_publishOnChannel, removed_getPCC]

theorem removed_Send (c : P2PClient) (t m : String) (rel : Bool) (s f : Option Nat) :
    (c.Send t m rel s f).1.removed_pc_channels = c.removed_pc_channels := by
  simp only [P2PClient.Send]
  split
  · rfl
  · simp [removed_getPCC]

theorem removed_Unpublish (c : P2PClient) (t : String) (st s f : Option Nat) :
    (c.Unpublish t st s f).1.removed_pc_channels = c.removed_pc_channels := by
  simp only [P2PClient.Unpublish]
  split
  · rfl
  · simp [removed_getPCC]

theorem removed_GetStats (c : P2PClient) (t : String) (s f : Option Nat) :
    (c.GetConnectionStats t s f).1.removed_pc_channels = c.removed_pc_channels := by
  simp only [P2PClient.GetConnectionStats]
  split
  · rfl
  · simp [removed_getPCC]

/-- Claim C9: `OnStopped` appends the registry entry for the remote id
(a null entry when the id is absent, `operator[]` default-constructing) to
the retained removed-channel side list, and no operation of the program
ever removes an entry from that list: every step leaves the old list as
an initial segment of the new one, so its length is monotonically
non-decreasing across all operations. -/
theorem C9_removed_list_monotone :
    (∀ (c : P2PClient) (remote_id : String),
      (c.step (Op.onStopped remote_id)).1.removed_pc_channels =
        c.removed_pc_channels ++ [List.lookup remote_id c.pc_channels]) ∧
    (∀ (c : P2PClient) (op : Op), ∃ t,
      (c.step op).1.removed_pc_channels = c.removed_pc_channels ++ t ∧
      c.removed_pc_channels.length ≤ (c.step op).1.removed_pc_channels.length) := by
  constructor
  · intro c r
    simp [P2PClient.step, P2PClient.OnStopped]
  · intro c op
    cases op with
    | onStopped r =>
      refine ⟨[List.lookup r c.pc_channels], ?_, ?_⟩ <;>
        simp [P2PClient.step, P2PClient.OnStopped]
    | setLocalId l =>
      refine ⟨[], ?_, ?_⟩ <;> simp [P2PClient.step, P2PClient.SetLocalId]
    | addAllowedRemoteId t =>
      refine ⟨[], ?_, ?_⟩ <;>
        simp only [P2PClient.step, P2PClient.AddAllowedRemoteId] <;> split <;> simp
    | removeAllowedRemoteId t s f =>
      refine ⟨[], ?_, ?_⟩ <;> simp [P2PClient.step, removed_RemoveAllowed]
    | publish t st s f =>
      refine ⟨[], ?_, ?_⟩ <;> simp [P2PClient.step, removed_Publish]
    | send t m rel s f =>
      refine ⟨[], ?_, ?_⟩ <;> simp [P2PClient.step, removed_Send]
    | unpublish t st s f =>
      refine ⟨[], ?_, ?_⟩ <;> simp [P2PClient.step, removed_Unpublish]
    | stop t s f =>
      refine ⟨[], ?_, ?_⟩ <;> simp [P2PClient.step, removed_Stop]
    | getConnectionStats t s f =>
      refine ⟨[], ?_, ?_⟩ <;> simp [P2PClient.step, removed_GetStats]
    | signalingMessageTask m r =>
      refine ⟨[], ?_, ?_⟩ <;> simp [P2PClient.step, removed_task]
    | addObserver o =>
      refine ⟨[], ?_, ?_⟩ <;> simp [P2PClient.step, P2PClient.AddObserver]
    | removeObserver o =>
      have hsr : (c.step (Op.removeObserver o)).1.removed_pc_channels =
          c.removed_pc_channels := by
        simp only [P2PClient.step, P2PClient.RemoveObserver]
        by_cases hb : o ∈ c.observers <;> simp [hb]
      exact ⟨[], by simp [hsr], by simp [hsr]⟩

/-- Claim C10: `RemoveObserver` presupposes the observer is registered:
on a registered observer it removes exactly the first entry identical to
it; on an unregistered observer `find_if` yields the past-the-end
iterator and the erase is out of range, so there is no defined result
and no not-found error path. -/
theorem C10_remove_observer (c : P2PClient) (obs : Nat) :
    (obs ∈ c.observers →
      c.RemoveObserver obs = some { c with observers := c.observers.erase obs }) ∧
    (obs ∉ c.observers → c.RemoveObserver obs = none) := by
  constructor
  · intro h
    simp [P2PClient.RemoveObserver, h]
  · intro h
    simp [P2PClient.RemoveObserver, h]

/-- Witness for C10: observer 5 is registered on `cW` and is removed;
observer 4 is not registered and the call has no defined result. -/
theorem C10_remove_observer_witness :
    (5 ∈ cW.observers ∧
      cW.RemoveObserver 5 = some { cW with observers := cW.observers.erase 5 }) ∧
    (4 ∉ cW.observers ∧ cW.RemoveObserver 4 = none) :=
  ⟨⟨by decide, (C10_remove_observer cW 5).1 (by decide)⟩,
   ⟨by decide, (C10_remove_observer cW 4).2 (by decide)⟩⟩
